import Mathlib

/-!
Shallow embedding of the close-approach query core: `src/filters.py`
(predicate filters, the filter-set builder `create_filters`, the bounded
limiter `limit`) and `src/write.py` (CSV and JSON serialization).

Modelling conventions:
- Python floats become `Rat` (the repository only compares and prints them).
- Python `datetime.date` becomes the `Date` structure with the calendar's
  lexicographic order; `datetime.datetime` becomes `Datetime`, whose
  `.date` field embeds Python's `.date()` projection.
- `None`-able arguments become `Option` values; Python truthiness of each
  argument type is embedded by a dedicated function.
- Raising becomes `Except`: `UnsupportedCriterionError` is the `.error`
  result of evaluating an unspecialized base filter.
-/

/-- Calendar date (the value of Python's `approach.time.date()`). -/
structure Date where
  year : Nat
  month : Nat
  day : Nat
deriving DecidableEq

/-- Lexicographic date comparison, as Python orders `datetime.date`. -/
def Date.le (a b : Date) : Bool :=
  if a.year = b.year then
    if a.month = b.month then decide (a.day ≤ b.day)
    else decide (a.month < b.month)
  else decide (a.year < b.year)

/-- Timestamp of a close approach; `date` embeds Python's `.date()`. -/
structure Datetime where
  date : Date
  hour : Nat
  minute : Nat
deriving DecidableEq

/-- The near-Earth object attached to a close approach (`approach.neo`):
designation, optional name, diameter (km) and the hazard flag. -/
structure NearEarthObject where
  designation : String
  name : Option String
  diameter : Rat
  hazardous : Bool
deriving DecidableEq

/-- A close-approach record: timestamp, nominal distance (au), relative
velocity (km/s), designation, and the attached near-Earth object. -/
structure CloseApproach where
  time : Datetime
  distance : Rat
  velocity : Rat
  designation : String
  neo : NearEarthObject
deriving DecidableEq

/-- The values a filter extracts and compares: hazard flags, calendar
dates, and numeric scalars (distance, velocity, diameter). -/
inductive Value where
  | vBool (b : Bool)
  | vDate (d : Date)
  | vNum (q : Rat)
deriving DecidableEq

/-- The comparators `create_filters` uses from the `operator` module. -/
inductive Comparator where
  | eq
  | ge
  | le
deriving DecidableEq

/-- Errors evaluation can raise: `UnsupportedCriterionError` from the base
class `get`, and a comparison across incompatible types (Python would
raise `TypeError`; unreachable for the filters the builder constructs). -/
inductive EvalError where
  | unsupportedCriterion
  | typeMismatch
deriving DecidableEq

/-- Which `get` override a filter carries: `base` is the unspecialized
`AttributeFilter.get`, the rest are the ten concrete subclasses. -/
inductive FilterKind where
  | base
  | hazardous
  | date
  | startDate
  | endDate
  | minDistance
  | maxDistance
  | minVelocity
  | maxVelocity
  | minDiameter
  | maxDiameter
deriving DecidableEq

/-- An `AttributeFilter`: an attribute-extraction rule (the subclass's
`get`), a comparator `op`, and a reference `value`. -/
structure AttributeFilter where
  kind : FilterKind
  op : Comparator
  value : Value
deriving DecidableEq

/-- `AttributeFilter.get` dispatched on the subclass: the base class
raises `UnsupportedCriterionError`; each subclass returns its attribute
of interest from the supplied approach. -/
def AttributeFilter.get (f : AttributeFilter) (approach : CloseApproach) :
    Except EvalError Value :=
  match f.kind with
  | .base => .error .unsupportedCriterion
  | .hazardous => .ok (.vBool approach.neo.hazardous)
  | .date => .ok (.vDate approach.time.date)
  | .startDate => .ok (.vDate approach.time.date)
  | .endDate => .ok (.vDate approach.time.date)
  | .minDistance => .ok (.vNum approach.distance)
  | .maxDistance => .ok (.vNum approach.distance)
  | .minVelocity => .ok (.vNum approach.velocity)
  | .maxVelocity => .ok (.vNum approach.velocity)
  | .minDiameter => .ok (.vNum approach.neo.diameter)
  | .maxDiameter => .ok (.vNum approach.neo.diameter)

/-- Application of a comparator from the `operator` module to two Python
values: `eq` across distinct builtin types is `False`, ordered comparison
across distinct types raises `TypeError`. -/
def applyOp : Comparator → Value → Value → Except EvalError Bool
  | .eq, .vBool x, .vBool y => .ok (x == y)
  | .eq, .vDate x, .vDate y => .ok (x == y)
  | .eq, .vNum x, .vNum y => .ok (x == y)
  | .eq, _, _ => .ok false
  | .ge, .vBool x, .vBool y => .ok (decide (y ≤ x))
  | .ge, .vDate x, .vDate y => .ok (Date.le y x)
  | .ge, .vNum x, .vNum y => .ok (decide (y ≤ x))
  | .ge, _, _ => .error .typeMismatch
  | .le, .vBool x, .vBool y => .ok (decide (x ≤ y))
  | .le, .vDate x, .vDate y => .ok (Date.le x y)
  | .le, .vNum x, .vNum y => .ok (decide (x ≤ y))
  | .le, _, _ => .error .typeMismatch

/-- `AttributeFilter.__call__`: evaluate `self.op(self.get(approach),
self.value)`, propagating the error the base `get` raises. -/
def AttributeFilter.call (f : AttributeFilter) (approach : CloseApproach) :
    Except EvalError Bool :=
  match f.get approach with
  | .ok actual => applyOp f.op actual f.value
  | .error e => .error e

/-- `HazardousFilter(hazardous)`: `operator.eq` on `approach.neo.hazardous`. -/
def HazardousFilter (hazardous : Bool) : AttributeFilter :=
  ⟨.hazardous, .eq, .vBool hazardous⟩

/-- `DateFilter(date)`: `operator.eq` on `approach.time.date()`. -/
def DateFilter (date : Date) : AttributeFilter :=
  ⟨.date, .eq, .vDate date⟩

/-- `StartDateFilter(date)`: `operator.ge` on `approach.time.date()`. -/
def StartDateFilter (date : Date) : AttributeFilter :=
  ⟨.startDate, .ge, .vDate date⟩

/-- `EndDateFilter(date)`: `operator.le` on `approach.time.date()`. -/
def EndDateFilter (date : Date) : AttributeFilter :=
  ⟨.endDate, .le, .vDate date⟩

/-- `MinDistanceFilter(val)`: `operator.ge` on `approach.distance`. -/
def MinDistanceFilter (val : Rat) : AttributeFilter :=
  ⟨.minDistance, .ge, .vNum val⟩

/-- `MaxDistanceFilter(val)`: `operator.le` on `approach.distance`. -/
def MaxDistanceFilter (val : Rat) : AttributeFilter :=
  ⟨.maxDistance, .le, .vNum val⟩

/-- `MinVelocityFilter(val)`: `operator.ge` on `approach.velocity`. -/
def MinVelocityFilter (val : Rat) : AttributeFilter :=
  ⟨.minVelocity, .ge, .vNum val⟩

/-- `MaxVelocityFilter(val)`: `operator.le` on `approach.velocity`. -/
def MaxVelocityFilter (val : Rat) : AttributeFilter :=
  ⟨.maxVelocity, .le, .vNum val⟩

/-- `MinDiameterFilter(val)`: `operator.ge` on `approach.neo.diameter`. -/
def MinDiameterFilter (val : Rat) : AttributeFilter :=
  ⟨.minDiameter, .ge, .vNum val⟩

/-- `MaxDiameterFilter(val)`: `operator.le` on `approach.neo.diameter`. -/
def MaxDiameterFilter (val : Rat) : AttributeFilter :=
  ⟨.maxDiameter, .le, .vNum val⟩

/-- The ten keyword arguments of `create_filters`, each defaulting to
`None` at the command line. -/
structure FilterOptions where
  date : Option Date
  start_date : Option Date
  end_date : Option Date
  distance_min : Option Rat
  distance_max : Option Rat
  velocity_min : Option Rat
  velocity_max : Option Rat
  diameter_min : Option Rat
  diameter_max : Option Rat
  hazardous : Option Bool
deriving DecidableEq

/-- The all-`None` argument list (every option left unset). -/
def noOptions : FilterOptions :=
  ⟨none, none, none, none, none, none, none, none, none, none⟩

/-- One `if option: filters.append(mk(option))` step for a date-typed
option: a Python `date` object is always truthy, so the test is exactly
"is it not None". -/
def appendIfDate (mk : Date → AttributeFilter) : Option Date → List AttributeFilter
  | none => []
  | some d => [mk d]

/-- One `if option: filters.append(mk(option))` step for a float-typed
option: Python truthiness makes both `None` and `0` falsy. -/
def appendIfNum (mk : Rat → AttributeFilter) : Option Rat → List AttributeFilter
  | none => []
  | some q => if q = 0 then [] else [mk q]

/-- The `if hazardous is not None: filters.append(HazardousFilter(hazardous))`
step: an explicit is-it-unset test, not truthiness, so `False` still
appends a filter. -/
def appendIfSet (mk : Bool → AttributeFilter) : Option Bool → List AttributeFilter
  | none => []
  | some b => [mk b]

/-- `create_filters`: append one filter per requested criterion, in the
source's fixed order, and return the list. -/
def create_filters (o : FilterOptions) : List AttributeFilter :=
  appendIfDate DateFilter o.date
    ++ appendIfDate StartDateFilter o.start_date
    ++ appendIfDate EndDateFilter o.end_date
    ++ appendIfNum MinDistanceFilter o.distance_min
    ++ appendIfNum MaxDistanceFilter o.distance_max
    ++ appendIfNum MinVelocityFilter o.velocity_min
    ++ appendIfNum MaxVelocityFilter o.velocity_max
    ++ appendIfNum MinDiameterFilter o.diameter_min
    ++ appendIfNum MaxDiameterFilter o.diameter_max
    ++ appendIfSet HazardousFilter o.hazardous

/-- The order in which `create_filters` appends the filter kinds. -/
def canonicalKinds : List FilterKind :=
  [.date, .startDate, .endDate, .minDistance, .maxDistance,
   .minVelocity, .maxVelocity, .minDiameter, .maxDiameter, .hazardous]

/-- `limit(iterator, n)` on a materialized finite sequence: `if n and
n > 0: return islice(iterator, n)`, else the iterator itself. -/
def limit {α : Type} (iterator : List α) (n : Option Int) : List α :=
  match n with
  | none => iterator
  | some m => if m != 0 && decide (0 < m) then iterator.take m.toNat else iterator

/-- `limit` at the iterator level: the source is a lazily-queried stream
(position to optional item), and `islice(iterator, n)` is the stream that
answers only at positions below `n`. The `None`-or-falsy branch returns
the very same stream. -/
def limitStream {α : Type} (s : Nat → Option α) (n : Option Int) : Nat → Option α :=
  match n with
  | none => s
  | some m =>
    if m != 0 && decide (0 < m) then (fun i => if i < m.toNat then s i else none)
    else s

/-- Modelled from the spec: the caller-owned query mechanism (`query` of
the database collaborator, outside this repository's core sources) ANDs
the filter collection over the record stream — a record survives exactly
when every filter in the collection evaluates to true on it. -/
def matchesAll (fs : List AttributeFilter) (approach : CloseApproach) : Bool :=
  fs.all (fun f => match f.call approach with
    | .ok b => b
    | .error _ => false)

/-- Modelled from the spec: conjunctive application of a filter
collection to a record stream (the caller's query pass). -/
def applyFilters (fs : List AttributeFilter) (stream : List CloseApproach) :
    List CloseApproach :=
  stream.filter (matchesAll fs)

/-- Decimal digits of the fractional part `num / den` (first argument is
fuel bounding the number of emitted digits). -/
def fracDigits : Nat → Nat → Nat → String
  | 0, _, _ => ""
  | _ + 1, 0, _ => ""
  | fuel + 1, num + 1, den =>
    let m := (num + 1) * 10
    Nat.repr (m / den) ++ fracDigits fuel (m % den) den

/-- Rendering of a numeric field as Python's `str` renders the float it
stands for: sign, integer part, then either `.0` for a whole value or the
decimal digits of the fractional part (exact for the terminating decimals
this development evaluates), computed from the reduced numerator and
denominator. -/
def pyFloatRepr (q : Rat) : String :=
  let sign := if q.num < 0 then "-" else ""
  let n := q.num.natAbs
  let ip := n / q.den
  let fracNum := n % q.den
  if fracNum = 0 then sign ++ Nat.repr ip ++ ".0"
  else sign ++ Nat.repr ip ++ "." ++ fracDigits 40 fracNum q.den

/-- Python's `str` on a bool, the CSV writer's native boolean text. -/
def pyBoolStr (b : Bool) : String :=
  if b then "True" else "False"

/-- Left-pad a numeral with zeros to the given width. -/
def padNum (width n : Nat) : String :=
  let s := Nat.repr n
  String.mk (List.replicate (width - s.length) '0') ++ s

/-- Modelled from the spec: `datetime_to_str` of the external `helpers`
collaborator (not part of this repository's core sources) — the canonical,
locale-independent rendering of a timestamp to minute precision,
`YYYY-MM-DD HH:MM` (the spec's scenario renders `2020-01-01 00:00`). -/
def datetime_to_str (t : Datetime) : String :=
  padNum 4 t.date.year ++ "-" ++ padNum 2 t.date.month ++ "-" ++ padNum 2 t.date.day
    ++ " " ++ padNum 2 t.hour ++ ":" ++ padNum 2 t.minute

/-- The expression `result.neo.name if result.neo.name else ""` of both
serializers: `None` and the empty string render as the empty string. -/
def renderName : Option String → String
  | none => ""
  | some n => if n = "" then "" else n

/-- The fixed header row of `write_to_csv`. -/
def csvHeader : List String :=
  ["datetime_utc", "distance_au", "velocity_km_s", "designation", "name",
   "diameter_km", "potentially_hazardous"]

/-- The row `write_to_csv` writes for one close approach: the timestamp
string, then each remaining value as the CSV writer's `str` renders it. -/
def approachRow (result : CloseApproach) : List String :=
  [datetime_to_str result.time,
   pyFloatRepr result.distance,
   pyFloatRepr result.velocity,
   result.designation,
   renderName result.neo.name,
   pyFloatRepr result.neo.diameter,
   pyBoolStr result.neo.hazardous]

/-- Does the CSV writer's minimal quoting have to quote this field? -/
def needsQuote (s : String) : Bool :=
  s.data.any (fun c => c = ',' || c = '"' || c = '\n' || c = '\r')

/-- Minimal quoting of one CSV field (quote and double inner quotes only
when the field contains a delimiter, quote or newline). -/
def csvQuote (s : String) : String :=
  if needsQuote s then "\"" ++ s.replace "\"" "\"\"" ++ "\"" else s

/-- One comma-delimited CSV line from a row of fields. -/
def csvLine (row : List String) : String :=
  String.intercalate "," (row.map csvQuote)

/-- `write_to_csv`: the header row followed by one row per close approach
in stream order (each line of the destination file, in order). -/
def write_to_csv (results : List CloseApproach) : List (List String) :=
  csvHeader :: results.map approachRow

/-- The JSON documents `write_to_json` builds (the shapes `json.dump`
serializes: strings, numbers, booleans, arrays, objects). -/
inductive JVal where
  | str (s : String)
  | num (q : Rat)
  | bool (b : Bool)
  | arr (xs : List JVal)
  | obj (fields : List (String × JVal))

/-- The field names of a JSON object (empty for any other document). -/
def JVal.keys : JVal → List String
  | .obj fields => fields.map Prod.fst
  | _ => []

/-- Look a field up in a JSON object. -/
def JVal.lookup (k : String) : JVal → Option JVal
  | .obj fields => List.lookup k fields
  | _ => none

/-- `_result_to_dict`: the dictionary serialized for one close approach —
three top-level attributes and the nested `neo` object. -/
def result_to_dict (result : CloseApproach) : JVal :=
  .obj [("datetime_utc", .str (datetime_to_str result.time)),
        ("distance_au", .num result.distance),
        ("velocity_km_s", .num result.velocity),
        ("neo", .obj [("designation", .str result.neo.designation),
                      ("name", .str (renderName result.neo.name)),
                      ("diameter_km", .num result.neo.diameter),
                      ("potentially_hazardous", .bool result.neo.hazardous)])]

/-- `write_to_json`: dump the list of per-approach dictionaries, in
stream order, as one top-level array. -/
def write_to_json (results : List CloseApproach) : JVal :=
  .arr (results.map result_to_dict)

/-- The spec's concrete scenario record: timestamp 2020-01-01 00:00,
distance 0.3, velocity 5.0, designation 433, an unnamed subject of
diameter 0.2 flagged hazardous. -/
def sampleApproach : CloseApproach :=
  ⟨⟨⟨2020, 1, 1⟩, 0, 0⟩, mkRat 3 10, mkRat 5 1, "433", ⟨"433", none, mkRat 2 10, true⟩⟩

/-! Theorems. The helper lemmas characterize membership in and the kind
order of the list `create_filters` builds; the claim theorems follow. -/

lemma mem_appendIfDate (mk : Date → AttributeFilter) (x : AttributeFilter) (od : Option Date) :
    x ∈ appendIfDate mk od ↔ ∃ d, od = some d ∧ x = mk d := by
  cases od <;> simp [appendIfDate]

lemma mem_appendIfNum (mk : Rat → AttributeFilter) (x : AttributeFilter) (oq : Option Rat) :
    x ∈ appendIfNum mk oq ↔ ∃ q, oq = some q ∧ q ≠ 0 ∧ x = mk q := by
  cases oq with
  | none => simp [appendIfNum]
  | some q => by_cases h : q = 0 <;> simp [appendIfNum, h]

lemma mem_appendIfSet (mk : Bool → AttributeFilter) (x : AttributeFilter) (ob : Option Bool) :
    x ∈ appendIfSet mk ob ↔ ∃ b, ob = some b ∧ x = mk b := by
  cases ob <;> simp [appendIfSet]

lemma kind_map_appendIfDate (mk : Date → AttributeFilter) (k : FilterKind)
    (h : ∀ d, (mk d).kind = k) (od : Option Date) :
    List.Sublist ((appendIfDate mk od).map AttributeFilter.kind) [k] := by
  cases od with
  | none => simp [appendIfDate]
  | some d => simp [appendIfDate, h d]

lemma kind_map_appendIfNum (mk : Rat → AttributeFilter) (k : FilterKind)
    (h : ∀ q, (mk q).kind = k) (oq : Option Rat) :
    List.Sublist ((appendIfNum mk oq).map AttributeFilter.kind) [k] := by
  cases oq with
  | none => simp [appendIfNum]
  | some q => by_cases h0 : q = 0 <;> simp [appendIfNum, h0, h q]

lemma kind_map_appendIfSet (mk : Bool → AttributeFilter) (k : FilterKind)
    (h : ∀ b, (mk b).kind = k) (ob : Option Bool) :
    List.Sublist ((appendIfSet mk ob).map AttributeFilter.kind) [k] := by
  cases ob with
  | none => simp [appendIfSet]
  | some b => simp [appendIfSet, h b]

lemma sublist_append10 {α : Type}
    {a1 a2 a3 a4 a5 a6 a7 a8 a9 a10 b1 b2 b3 b4 b5 b6 b7 b8 b9 b10 : List α}
    (h1 : List.Sublist a1 b1) (h2 : List.Sublist a2 b2) (h3 : List.Sublist a3 b3)
    (h4 : List.Sublist a4 b4) (h5 : List.Sublist a5 b5) (h6 : List.Sublist a6 b6)
    (h7 : List.Sublist a7 b7) (h8 : List.Sublist a8 b8) (h9 : List.Sublist a9 b9)
    (h10 : List.Sublist a10 b10) :
    List.Sublist (a1 ++ a2 ++ a3 ++ a4 ++ a5 ++ a6 ++ a7 ++ a8 ++ a9 ++ a10)
      (b1 ++ b2 ++ b3 ++ b4 ++ b5 ++ b6 ++ b7 ++ b8 ++ b9 ++ b10) :=
  ((((((((h1.append h2).append h3).append h4).append
    h5).append h6).append h7).append h8).append h9).append h10

lemma create_filters_kinds_sublist (o : FilterOptions) :
    List.Sublist ((create_filters o).map AttributeFilter.kind) canonicalKinds := by
  have h := sublist_append10
    (kind_map_appendIfDate DateFilter .date (fun _ => rfl) o.date)
    (kind_map_appendIfDate StartDateFilter .startDate (fun _ => rfl) o.start_date)
    (kind_map_appendIfDate EndDateFilter .endDate (fun _ => rfl) o.end_date)
    (kind_map_appendIfNum MinDistanceFilter .minDistance (fun _ => rfl) o.distance_min)
    (kind_map_appendIfNum MaxDistanceFilter .maxDistance (fun _ => rfl) o.distance_max)
    (kind_map_appendIfNum MinVelocityFilter .minVelocity (fun _ => rfl) o.velocity_min)
    (kind_map_appendIfNum MaxVelocityFilter .maxVelocity (fun _ => rfl) o.velocity_max)
    (kind_map_appendIfNum MinDiameterFilter .minDiameter (fun _ => rfl) o.diameter_min)
    (kind_map_appendIfNum MaxDiameterFilter .maxDiameter (fun _ => rfl) o.diameter_max)
    (kind_map_appendIfSet HazardousFilter .hazardous (fun _ => rfl) o.hazardous)
  simpa [create_filters, canonicalKinds, List.map_append] using h

/-- C1: every concrete filter variant, built from its comparator and a
reference value, evaluates on any record to exactly the comparator
applied to the extracted attribute and the reference value: the hazard
flag under equality; the timestamp's calendar date under equality, ≥ and
≤; the approach distance, the approach velocity and the subject's
diameter each under ≥ and ≤. -/
theorem filter_variants_evaluate (a : CloseApproach) (b : Bool) (d : Date) (q : Rat) :
    (HazardousFilter b).call a = .ok (a.neo.hazardous == b) ∧
    (DateFilter d).call a = .ok (a.time.date == d) ∧
    (StartDateFilter d).call a = .ok (Date.le d a.time.date) ∧
    (EndDateFilter d).call a = .ok (Date.le a.time.date d) ∧
    (MinDistanceFilter q).call a = .ok (decide (q ≤ a.distance)) ∧
    (MaxDistanceFilter q).call a = .ok (decide (a.distance ≤ q)) ∧
    (MinVelocityFilter q).call a = .ok (decide (q ≤ a.velocity)) ∧
    (MaxVelocityFilter q).call a = .ok (decide (a.velocity ≤ q)) ∧
    (MinDiameterFilter q).call a = .ok (decide (q ≤ a.neo.diameter)) ∧
    (MaxDiameterFilter q).call a = .ok (decide (a.neo.diameter ≤ q)) :=
  ⟨rfl, rfl, rfl, rfl, rfl, rfl, rfl, rfl, rfl, rfl⟩

/-- C2: for every configuration of the ten optional criteria,
`create_filters` keeps the kinds of the produced filters in the fixed
order date, start date, end date, min/max distance, min/max velocity,
min/max diameter, hazardous, with no kind repeated, and a variant with a
given value is in the output exactly when the corresponding criterion is
requested with that value (for the numeric criteria, requested and
nonzero, the spec's zero-is-unset rule; for the hazard criterion, any
set boolean). -/
theorem create_filters_spec (o : FilterOptions) :
    List.Sublist ((create_filters o).map AttributeFilter.kind) canonicalKinds ∧
    ((create_filters o).map AttributeFilter.kind).Nodup ∧
    (∀ d, DateFilter d ∈ create_filters o ↔ o.date = some d) ∧
    (∀ d, StartDateFilter d ∈ create_filters o ↔ o.start_date = some d) ∧
    (∀ d, EndDateFilter d ∈ create_filters o ↔ o.end_date = some d) ∧
    (∀ q, MinDistanceFilter q ∈ create_filters o ↔ o.distance_min = some q ∧ q ≠ 0) ∧
    (∀ q, MaxDistanceFilter q ∈ create_filters o ↔ o.distance_max = some q ∧ q ≠ 0) ∧
    (∀ q, MinVelocityFilter q ∈ create_filters o ↔ o.velocity_min = some q ∧ q ≠ 0) ∧
    (∀ q, MaxVelocityFilter q ∈ create_filters o ↔ o.velocity_max = some q ∧ q ≠ 0) ∧
    (∀ q, MinDiameterFilter q ∈ create_filters o ↔ o.diameter_min = some q ∧ q ≠ 0) ∧
    (∀ q, MaxDiameterFilter q ∈ create_filters o ↔ o.diameter_max = some q ∧ q ≠ 0) ∧
    (∀ b, HazardousFilter b ∈ create_filters o ↔ o.hazardous = some b) := by
  refine ⟨create_filters_kinds_sublist o,
    List.Nodup.sublist (create_filters_kinds_sublist o) (by decide),
    ?_, ?_, ?_, ?_, ?_, ?_, ?_, ?_, ?_, ?_⟩ <;>
  · intro v
    simp [create_filters, mem_appendIfDate, mem_appendIfNum, mem_appendIfSet,
      DateFilter, StartDateFilter, EndDateFilter, MinDistanceFilter, MaxDistanceFilter,
      MinVelocityFilter, MaxVelocityFilter, MinDiameterFilter, MaxDiameterFilter,
      HazardousFilter]

/-- C3: for a positive bound, `limit` yields exactly the first
min(length, n) items of the sequence in order and unchanged; for a zero
or absent bound it returns the input sequence itself; at the iterator
level the unlimited branches return the very stream they were given, and
the limited stream is determined by the source's first n positions alone
(nothing beyond the n-th item is consulted). -/
theorem limit_spec {α : Type} (S : List α) (n : Int) (s t : Nat → Option α) :
    (0 < n → limit S (some n) = S.take n.toNat ∧
      (limit S (some n)).length = min S.length n.toNat) ∧
    limit S (some 0) = S ∧
    limit S none = S ∧
    limitStream s (some 0) = s ∧
    limitStream s none = s ∧
    (0 < n → (∀ i, i < n.toNat → s i = t i) →
      limitStream s (some n) = limitStream t (some n)) := by
  constructor
  · intro hn
    have hcond : ((n : Int) != 0 && decide (0 < n)) = true := by
      simp [hn, hn.ne']
    constructor
    · simp [limit, hcond]
    · simp [limit, hcond, List.length_take, Nat.min_comm]
  refine ⟨by simp [limit], rfl, by simp [limitStream], rfl, ?_⟩
  intro hn hpre
  have hcond : ((n : Int) != 0 && decide (0 < n)) = true := by
    simp [hn, hn.ne']
  simp only [limitStream, hcond, if_true]
  funext i
  by_cases hi : i < n.toNat
  · simp [hi, hpre i hi]
  · simp [hi]

/-- Witness for C3: `limit` at the concrete bound 2 on a three-item
sequence, and the unlimited branches on the same sequence. -/
theorem limit_spec_witness :
    limit [10, 20, 30] (some 2) = [10, 20] ∧
    limit [10, 20, 30] (some 0) = [10, 20, 30] ∧
    limit ([10, 20, 30] : List Nat) none = [10, 20, 30] := by
  have h := limit_spec [10, 20, 30] 2 (fun _ => some 0) (fun _ => some 0)
  exact ⟨((h.1 (by decide)).1).trans (by decide), h.2.1, h.2.2.1⟩

/-- C10: a negative bound falls into the `n > 0`-fails branch of `limit`,
so the input sequence (list or stream) is returned itself, untruncated
and without an error. -/
theorem limit_negative {α : Type} (S : List α) (m : Int) (h : m < 0) :
    limit S (some m) = S ∧ (∀ s : Nat → Option α, limitStream s (some m) = s) := by
  have hcond : ((m : Int) != 0 && decide (0 < m)) = false := by
    simp only [Bool.and_eq_false_iff, decide_eq_false_iff_not, not_lt]
    right
    exact h.le
  exact ⟨by simp [limit, hcond], fun s => by simp [limitStream, hcond]⟩

/-- Witness for C10: `limit` with the concrete negative bound -5 returns
the three-item input unchanged. -/
theorem limit_negative_witness :
    limit [10, 20, 30] (some (-5)) = ([10, 20, 30] : List Nat) :=
  (limit_negative [10, 20, 30] (-5) (by decide)).1

/-- C4: the hazard criterion is tri-state — `hazardous := some false`
produces exactly the hazard filter matching records whose subject is not
hazardous, while leaving `hazardous` unset produces no filter at all, and
the two outcomes differ by membership of the hazard filter in the
returned collection. -/
theorem hazardous_tristate (a : CloseApproach) :
    create_filters ⟨none, none, none, none, none, none, none, none, none, some false⟩ =
      [HazardousFilter false] ∧
    (HazardousFilter false).call a = .ok (a.neo.hazardous == false) ∧
    HazardousFilter false ∈
      create_filters ⟨none, none, none, none, none, none, none, none, none, some false⟩ ∧
    create_filters noOptions = [] ∧
    HazardousFilter false ∉ create_filters noOptions := by
  refine ⟨rfl, rfl, by decide, rfl, by decide⟩

/-- C5: passing 0 for any of the six numeric min/max criteria is
equivalent to leaving it unset — the returned collection is empty. -/
theorem zero_threshold_no_filter :
    create_filters ⟨none, none, none, some 0, none, none, none, none, none, none⟩ = [] ∧
    create_filters ⟨none, none, none, none, some 0, none, none, none, none, none⟩ = [] ∧
    create_filters ⟨none, none, none, none, none, some 0, none, none, none, none⟩ = [] ∧
    create_filters ⟨none, none, none, none, none, none, some 0, none, none, none⟩ = [] ∧
    create_filters ⟨none, none, none, none, none, none, none, some 0, none, none⟩ = [] ∧
    create_filters ⟨none, none, none, none, none, none, none, none, some 0, none⟩ = [] := by
  refine ⟨?_, ?_, ?_, ?_, ?_, ?_⟩ <;>
    simp [create_filters, appendIfNum, appendIfDate, appendIfSet]

/-- C6: evaluating a filter whose extraction rule was never specialized
(the base kind, with any comparator and reference value) fails with the
unsupported-criterion error on every record, and never returns a
boolean. -/
theorem base_filter_unsupported (op : Comparator) (v : Value) (a : CloseApproach) :
    (AttributeFilter.mk .base op v).call a = .error .unsupportedCriterion ∧
    (∀ b : Bool, (AttributeFilter.mk .base op v).call a ≠ .ok b) :=
  ⟨rfl, fun _ h => Except.noConfusion h⟩

/-- C7: building filters from all-unset options yields the empty
collection, and applying an empty collection conjunctively to any record
stream (vacuously, every filter holds) returns the stream unchanged. -/
theorem empty_options_identity (stream : List CloseApproach) :
    create_filters noOptions = [] ∧
    applyFilters [] stream = stream ∧
    applyFilters (create_filters noOptions) stream = stream := by
  have h : create_filters noOptions = [] := rfl
  rw [h]
  refine ⟨rfl, ?_, ?_⟩ <;> simp [applyFilters, matchesAll]

/-- C8: `write_to_csv` emits exactly one header row with the seven fixed
column names followed by one row per record in stream order, each row in
the fixed field order with the canonical timestamp string, the empty
string for an absent subject name and the native boolean text for the
hazard flag; on the spec's single sample record the emitted lines are the
header and exactly `2020-01-01 00:00,0.3,5.0,433,,0.2,True`. -/
theorem write_csv_spec (results : List CloseApproach) (r : CloseApproach) :
    write_to_csv results = csvHeader :: results.map approachRow ∧
    (write_to_csv results).length = results.length + 1 ∧
    csvHeader = ["datetime_utc", "distance_au", "velocity_km_s", "designation", "name",
      "diameter_km", "potentially_hazardous"] ∧
    approachRow r = [datetime_to_str r.time, pyFloatRepr r.distance, pyFloatRepr r.velocity,
      r.designation, renderName r.neo.name, pyFloatRepr r.neo.diameter,
      pyBoolStr r.neo.hazardous] ∧
    renderName none = "" ∧
    pyBoolStr true = "True" ∧
    (write_to_csv [sampleApproach]).map csvLine =
      ["datetime_utc,distance_au,velocity_km_s,designation,name,diameter_km,potentially_hazardous",
       "2020-01-01 00:00,0.3,5.0,433,,0.2,True"] := by
  refine ⟨rfl, by simp [write_to_csv], rfl, rfl, rfl, rfl, by decide⟩

/-- C9: `write_to_json` emits one top-level array with one element per
record in stream order; each element carries exactly the keys
datetime_utc, distance_au, velocity_km_s and a nested neo object with
exactly designation, name (empty string when absent), diameter_km and
potentially_hazardous, and the record's own designation is absent from
the top level; the spec's sample record serializes to exactly the
documented object. -/
theorem write_json_spec (results : List CloseApproach) (r : CloseApproach) :
    write_to_json results = JVal.arr (results.map result_to_dict) ∧
    (result_to_dict r).keys = ["datetime_utc", "distance_au", "velocity_km_s", "neo"] ∧
    (result_to_dict r).lookup "designation" = none ∧
    ((result_to_dict r).lookup "neo").map JVal.keys =
      some ["designation", "name", "diameter_km", "potentially_hazardous"] ∧
    ((result_to_dict r).lookup "neo").map (JVal.lookup "name") =
      some (some (.str (renderName r.neo.name))) ∧
    renderName none = "" ∧
    result_to_dict sampleApproach =
      .obj [("datetime_utc", .str "2020-01-01 00:00"),
            ("distance_au", .num (mkRat 3 10)),
            ("velocity_km_s", .num (mkRat 5 1)),
            ("neo", .obj [("designation", .str "433"), ("name", .str ""),
                          ("diameter_km", .num (mkRat 2 10)),
                          ("potentially_hazardous", .bool true)])] :=
  ⟨rfl, rfl, rfl, rfl, rfl, rfl, rfl⟩
